import Mathlib

/-!
# Steuer-Tool: the two tax calculators of `src/App.jsx`

The development embeds the arithmetic and the state handling of the two React
components `HoldingRechner` and `GfOptimierung`, together with the change
handler of `NumberInput` and the click handler of `Toggle`.

Numbers.  A JavaScript number is embedded as `JSNum`: an exact rational, or one
of the three special values `NaN`, `+Infinity`, `-Infinity`.  Arithmetic on
finite values is exact (the rounding of IEEE-754 binary64 is not part of the
embedding) and the two zeros `+0` and `-0` are identified.  The special values
follow the IEEE rules (`0/0 = NaN`, `x/0 = ±Infinity`, `Infinity - Infinity = NaN`,
every comparison with `NaN` is false, `NaN` and `0` are falsy).
-/

namespace SteuerTool

/-! ## JavaScript numbers -/

/-- A JavaScript number: `NaN`, the two infinities, or a finite value. -/
inductive JSNum where
  | nan
  | pinf
  | ninf
  | fin (q : ℚ)
deriving DecidableEq

namespace JSNum

/-- Unary minus. -/
def neg : JSNum → JSNum
  | nan => nan
  | pinf => ninf
  | ninf => pinf
  | fin q => fin (-q)

/-- The operator `+`. -/
def add : JSNum → JSNum → JSNum
  | nan, _ => nan
  | _, nan => nan
  | pinf, ninf => nan
  | ninf, pinf => nan
  | pinf, _ => pinf
  | ninf, _ => ninf
  | fin _, pinf => pinf
  | fin _, ninf => ninf
  | fin a, fin b => fin (a + b)

/-- The operator `-`. -/
def sub (a b : JSNum) : JSNum := add a (neg b)

/-- The infinity of the given sign. -/
def signedInf (positive : Bool) : JSNum := if positive then pinf else ninf

/-- The operator `*`. -/
def mul : JSNum → JSNum → JSNum
  | nan, _ => nan
  | _, nan => nan
  | pinf, pinf => pinf
  | pinf, ninf => ninf
  | ninf, pinf => ninf
  | ninf, ninf => pinf
  | pinf, fin b => if b = 0 then nan else signedInf (decide (0 < b))
  | ninf, fin b => if b = 0 then nan else signedInf (decide (b < 0))
  | fin a, pinf => if a = 0 then nan else signedInf (decide (0 < a))
  | fin a, ninf => if a = 0 then nan else signedInf (decide (a < 0))
  | fin a, fin b => fin (a * b)

/-- The operator `/`.  A finite non-zero value divided by zero is an infinity,
`0/0` is `NaN`, a finite value divided by an infinity is zero. -/
def div : JSNum → JSNum → JSNum
  | nan, _ => nan
  | _, nan => nan
  | pinf, pinf => nan
  | pinf, ninf => nan
  | ninf, pinf => nan
  | ninf, ninf => nan
  | pinf, fin b => signedInf (decide (0 ≤ b))
  | ninf, fin b => signedInf (decide (b < 0))
  | fin _, pinf => fin 0
  | fin _, ninf => fin 0
  | fin a, fin b =>
      if b = 0 then (if a = 0 then nan else signedInf (decide (0 < a)))
      else fin (a / b)

instance : Neg JSNum := ⟨neg⟩
instance : Add JSNum := ⟨add⟩
instance : Sub JSNum := ⟨sub⟩
instance : Mul JSNum := ⟨mul⟩
instance : Div JSNum := ⟨div⟩

/-- The comparison `a > b`; false as soon as one side is `NaN`. -/
def gt : JSNum → JSNum → Bool
  | nan, _ => false
  | _, nan => false
  | pinf, pinf => false
  | pinf, _ => true
  | ninf, _ => false
  | fin _, pinf => false
  | fin _, ninf => true
  | fin a, fin b => decide (b < a)

/-- The predicate `Number.isFinite`. -/
def isFinite : JSNum → Bool
  | fin _ => true
  | _ => false

/-- Truthiness of a number (`ToBoolean`): `NaN` and zero are falsy. -/
def truthy : JSNum → Bool
  | nan => false
  | fin q => decide (q ≠ 0)
  | _ => true

/-- The operator `a || b` on numbers. -/
def or (a b : JSNum) : JSNum := if truthy a then a else b

/-- The function `Math.max` of two arguments. -/
def max : JSNum → JSNum → JSNum
  | nan, _ => nan
  | _, nan => nan
  | a, b => if gt b a then b else a

end JSNum

open JSNum

/-! ## The built-in `parseFloat`

Modelled after ECMA-262, `parseFloat ( string )`: leading white space is
trimmed, the longest prefix that is a `StrDecimalLiteral` is taken, and its
value is returned; the result is `NaN` when no prefix is one. -/

/-- The code points removed by `TrimString` (`StrWhiteSpaceChar`). -/
def isStrWhiteSpaceChar (c : Char) : Bool :=
  let n := c.toNat
  n = 9 || n = 10 || n = 11 || n = 12 || n = 13 || n = 32 || n = 0xA0 || n = 0x1680 ||
    (0x2000 ≤ n && n ≤ 0x200A) || n = 0x2028 || n = 0x2029 || n = 0x202F || n = 0x205F ||
    n = 0x3000 || n = 0xFEFF

/-- The value of a run of decimal digits. -/
def digitsToNat (ds : List Char) : Nat :=
  ds.foldl (fun acc c => 10 * acc + (c.toNat - 48)) 0

/-- The value of a `SignedInteger` at the head of the text, if there is one. -/
def signedInteger : List Char → Option Int
  | '+' :: r =>
      let ds := r.takeWhile Char.isDigit
      if ds = [] then none else some (digitsToNat ds)
  | '-' :: r =>
      let ds := r.takeWhile Char.isDigit
      if ds = [] then none else some (-(digitsToNat ds : Int))
  | r =>
      let ds := r.takeWhile Char.isDigit
      if ds = [] then none else some (digitsToNat ds)

/-- The exponent of the optional `ExponentPart` at the head of the text; `0`
when no well-formed exponent part follows. -/
def exponentPart : List Char → Int
  | 'e' :: r => (signedInteger r).getD 0
  | 'E' :: r => (signedInteger r).getD 0
  | _ => 0

/-- The value of the longest `StrUnsignedDecimalLiteral` at the head of the
text: `Infinity`, `digits . digits? exponent?`, `. digits exponent?` or
`digits exponent?`. -/
def strUnsignedDecimalLiteral (cs : List Char) : Option JSNum :=
  if "Infinity".toList.isPrefixOf cs then some pinf
  else
    let ip := cs.takeWhile Char.isDigit
    match cs.dropWhile Char.isDigit with
    | '.' :: r =>
        let fp := r.takeWhile Char.isDigit
        if ip = [] ∧ fp = [] then none
        else
          some (fin ((digitsToNat (ip ++ fp) : ℚ) / (10 : ℚ) ^ fp.length *
            (10 : ℚ) ^ exponentPart (r.dropWhile Char.isDigit)))
    | r =>
        if ip = [] then none
        else some (fin ((digitsToNat ip : ℚ) * (10 : ℚ) ^ exponentPart r))

/-- The value of the longest `StrDecimalLiteral` at the head of the text. -/
def strDecimalLiteral : List Char → Option JSNum
  | '+' :: r => strUnsignedDecimalLiteral r
  | '-' :: r => (strUnsignedDecimalLiteral r).map JSNum.neg
  | r => strUnsignedDecimalLiteral r

/-- The global function `parseFloat`. -/
def parseFloat (s : String) : JSNum :=
  (strDecimalLiteral (s.toList.dropWhile isStrWhiteSpaceChar)).getD nan

/-- The operator `a || b` on strings: the empty string is falsy. -/
def strOr (a b : String) : String := if a = "" then b else a

/-! ## Shared widgets and helpers -/

/-- The argument `Number.isFinite(n) ? n : 0` that `fmt` hands to the currency
formatter (`App.jsx`, line 8). -/
def fmtArg (n : JSNum) : JSNum := if n.isFinite then n else fin 0

namespace NumberInput

/-- The `onChange` handler of the `<input>` (`App.jsx`, line 45), applied to
`e.target.value`: it calls the `onChange` prop with the parsed text. -/
def onChange {α : Type} (onChangeProp : JSNum → α) (value : String) : α :=
  onChangeProp (parseFloat (strOr value "0"))

/-- A change event on the control: a disabled `<input>` receives none, an
enabled one runs the handler. -/
def change {σ : Type} (disabled : Bool) (onChangeProp : JSNum → σ → σ) (value : String)
    (s : σ) : σ :=
  if disabled then s else onChange onChangeProp value s

end NumberInput

namespace Toggle

/-- The `onClick` handler of the button (`App.jsx`, line 64).  The component
takes no `disabled` prop: the button can always be clicked. -/
def onClick {α : Type} (onChangeProp : Bool → α) (checked : Bool) : α :=
  onChangeProp (!checked)

end Toggle

/-! ## Tool 1: `HoldingRechner` -/

namespace HoldingRechner

/-- The `useState` cells of the component. -/
structure State where
  useAvg : Bool
  dividend : JSNum
  hasTradeTaxExemption : Bool
  kStRate : JSNum
  soliRate : JSNum
  gewStRate : JSNum
deriving DecidableEq

/-- The constant `AVG.dividend`. -/
def AVG.dividend : JSNum := fin 200000
/-- The constant `AVG.kStRate`. -/
def AVG.kStRate : JSNum := fin 0.15
/-- The constant `AVG.soliRate`. -/
def AVG.soliRate : JSNum := fin 0.055
/-- The constant `AVG.gewStRate`. -/
def AVG.gewStRate : JSNum := fin 0.14
/-- The constant `AVG.hasTradeTaxExemption`. -/
def AVG.hasTradeTaxExemption : Bool := true

/-- State setter of `useAvg`. -/
def setUseAvg (v : Bool) (s : State) : State := { s with useAvg := v }
/-- State setter of `dividend`. -/
def setDividend (v : JSNum) (s : State) : State := { s with dividend := v }
/-- State setter of `hasTradeTaxExemption`. -/
def setTradeTaxExemption (v : Bool) (s : State) : State := { s with hasTradeTaxExemption := v }
/-- State setter of `kStRate`. -/
def setKStRate (v : JSNum) (s : State) : State := { s with kStRate := v }
/-- State setter of `soliRate`. -/
def setSoliRate (v : JSNum) (s : State) : State := { s with soliRate := v }
/-- State setter of `gewStRate`. -/
def setGewStRate (v : JSNum) (s : State) : State := { s with gewStRate := v }

/-- The body of the effect (`App.jsx`, lines 96-104). -/
def useEffect (s : State) : State :=
  if s.useAvg then
    setGewStRate AVG.gewStRate (setSoliRate AVG.soliRate (setKStRate AVG.kStRate
      (setTradeTaxExemption AVG.hasTradeTaxExemption (setDividend AVG.dividend s))))
  else s

/-- Commit of a state update: the effect has the dependency list `[useAvg]`, so
it runs exactly when `useAvg` differs from its value at the previous render. -/
def commit (prev next : State) : State :=
  if next.useAvg = prev.useAvg then next else useEffect next

/-- The state after mounting: the `useState` initial values, then the effect. -/
def init : State :=
  useEffect
    { useAvg := true, dividend := AVG.dividend,
      hasTradeTaxExemption := AVG.hasTradeTaxExemption, kStRate := AVG.kStRate,
      soliRate := AVG.soliRate, gewStRate := AVG.gewStRate }

/-- The user events the rendered controls accept (`App.jsx`, lines 121-129). -/
inductive Event where
  | clickUseAvg
  | changeDividend (value : String)
  | changeKStRate (value : String)
  | changeSoliRate (value : String)
  | changeGewStRate (value : String)
  | clickTradeTaxExemption

/-- One event: the handler of the control, then the commit. -/
def step (s : State) : Event → State
  | .clickUseAvg => commit s (Toggle.onClick setUseAvg s.useAvg s)
  | .changeDividend v => commit s (NumberInput.change s.useAvg setDividend v s)
  | .changeKStRate v => commit s (NumberInput.change s.useAvg setKStRate v s)
  | .changeSoliRate v => commit s (NumberInput.change s.useAvg setSoliRate v s)
  | .changeGewStRate v => commit s (NumberInput.change s.useAvg setGewStRate v s)
  | .clickTradeTaxExemption =>
      commit s (Toggle.onClick setTradeTaxExemption s.hasTradeTaxExemption s)

/-- The state reached from the mounted component by a sequence of events. -/
def run (es : List Event) : State := es.foldl step init

/-- The object returned by the `results` memo. -/
structure Results where
  taxablePortion : JSNum
  kst : JSNum
  soli : JSNum
  gewst : JSNum
  totalTax : JSNum
  netToHolding : JSNum
  effTaxRate : JSNum
deriving DecidableEq

/-- The `results` memo (`App.jsx`, lines 106-115). -/
def results (s : State) : Results :=
  let taxablePortion := s.dividend * fin 0.05
  let kst := taxablePortion * s.kStRate
  let soli := kst * s.soliRate
  let gewst := if s.hasTradeTaxExemption then fin 0 else taxablePortion * s.gewStRate
  let totalTax := kst + soli + gewst
  let netToHolding := s.dividend - totalTax
  let effTaxRate := JSNum.or (totalTax / s.dividend) (fin 0)
  { taxablePortion, kst, soli, gewst, totalTax, netToHolding, effTaxRate }

/-- The total tax on finite inputs, as a rational: the value of `totalTax` in
exact arithmetic. -/
def totalTaxQ (ex : Bool) (d k so g : ℚ) : ℚ :=
  d * 0.05 * k + d * 0.05 * k * so + (if ex then 0 else d * 0.05 * g)

/-- Every numeric field has its default while `useAvg` is true. -/
def NumericPinned (s : State) : Prop :=
  s.useAvg = true →
    s.dividend = AVG.dividend ∧ s.kStRate = AVG.kStRate ∧
    s.soliRate = AVG.soliRate ∧ s.gewStRate = AVG.gewStRate

end HoldingRechner

/-! ## Tool 2: `GfOptimierung` -/

namespace GfOptimierung

/-- The `useState` cells of the component. -/
structure State where
  useAvg : Bool
  bruttoGehalt : JSNum
  persEStRate : JSNum
  kirchensteuer : JSNum
  abgeltungOpt : Bool
  dividende : JSNum
  arbeitnehmerSV : JSNum
deriving DecidableEq

/-- The constant `AVG.bruttoGehalt`. -/
def AVG.bruttoGehalt : JSNum := fin 180000
/-- The constant `AVG.dividende`. -/
def AVG.dividende : JSNum := fin 150000
/-- The constant `AVG.persEStRate`. -/
def AVG.persEStRate : JSNum := fin 0.35
/-- The constant `AVG.kirchensteuer`. -/
def AVG.kirchensteuer : JSNum := fin 0.085
/-- The constant `AVG.arbeitnehmerSV`. -/
def AVG.arbeitnehmerSV : JSNum := fin 0.2
/-- The constant `AVG.soliRate`. -/
def AVG.soliRate : JSNum := fin 0.055
/-- The constant `AVG.abgeltungOpt`. -/
def AVG.abgeltungOpt : Bool := false

/-- The constant `soliRate` of the component (`App.jsx`, line 181): not state. -/
def soliRate : JSNum := AVG.soliRate

/-- State setter of `useAvg`. -/
def setUseAvg (v : Bool) (s : State) : State := { s with useAvg := v }
/-- State setter of `bruttoGehalt`. -/
def setBruttoGehalt (v : JSNum) (s : State) : State := { s with bruttoGehalt := v }
/-- State setter of `persEStRate`. -/
def setPersEStRate (v : JSNum) (s : State) : State := { s with persEStRate := v }
/-- State setter of `kirchensteuer`. -/
def setKirchensteuer (v : JSNum) (s : State) : State := { s with kirchensteuer := v }
/-- State setter of `abgeltungOpt`. -/
def setAbgeltungOpt (v : Bool) (s : State) : State := { s with abgeltungOpt := v }
/-- State setter of `dividende`. -/
def setDividende (v : JSNum) (s : State) : State := { s with dividende := v }
/-- State setter of `arbeitnehmerSV`. -/
def setArbeitnehmerSV (v : JSNum) (s : State) : State := { s with arbeitnehmerSV := v }

/-- The body of the effect (`App.jsx`, lines 184-193). -/
def useEffect (s : State) : State :=
  if s.useAvg then
    setArbeitnehmerSV AVG.arbeitnehmerSV (setDividende AVG.dividende
      (setAbgeltungOpt AVG.abgeltungOpt (setKirchensteuer AVG.kirchensteuer
        (setPersEStRate AVG.persEStRate (setBruttoGehalt AVG.bruttoGehalt s)))))
  else s

/-- Commit of a state update: the effect has the dependency list `[useAvg]`. -/
def commit (prev next : State) : State :=
  if next.useAvg = prev.useAvg then next else useEffect next

/-- The state after mounting: the `useState` initial values, then the effect. -/
def init : State :=
  useEffect
    { useAvg := true, bruttoGehalt := AVG.bruttoGehalt, persEStRate := AVG.persEStRate,
      kirchensteuer := AVG.kirchensteuer, abgeltungOpt := AVG.abgeltungOpt,
      dividende := AVG.dividende, arbeitnehmerSV := AVG.arbeitnehmerSV }

/-- The user events the rendered controls accept (`App.jsx`, lines 226-235). -/
inductive Event where
  | clickUseAvg
  | changeBruttoGehalt (value : String)
  | changeDividende (value : String)
  | changePersEStRate (value : String)
  | changeKirchensteuer (value : String)
  | changeArbeitnehmerSV (value : String)
  | clickAbgeltungOpt

/-- One event: the handler of the control, then the commit. -/
def step (s : State) : Event → State
  | .clickUseAvg => commit s (Toggle.onClick setUseAvg s.useAvg s)
  | .changeBruttoGehalt v => commit s (NumberInput.change s.useAvg setBruttoGehalt v s)
  | .changeDividende v => commit s (NumberInput.change s.useAvg setDividende v s)
  | .changePersEStRate v => commit s (NumberInput.change s.useAvg setPersEStRate v s)
  | .changeKirchensteuer v => commit s (NumberInput.change s.useAvg setKirchensteuer v s)
  | .changeArbeitnehmerSV v => commit s (NumberInput.change s.useAvg setArbeitnehmerSV v s)
  | .clickAbgeltungOpt => commit s (Toggle.onClick setAbgeltungOpt s.abgeltungOpt s)

/-- The state reached from the mounted component by a sequence of events. -/
def run (es : List Event) : State := es.foldl step init

/-- The object returned by the `salaryNet` memo. -/
structure SalaryNet where
  sv : JSNum
  est : JSNum
  soli : JSNum
  kirche : JSNum
  netto : JSNum
deriving DecidableEq

/-- The `salaryNet` memo (`App.jsx`, lines 195-203). -/
def salaryNet (s : State) : SalaryNet :=
  let sv := s.bruttoGehalt * s.arbeitnehmerSV
  let taxable := JSNum.max (fin 0) (s.bruttoGehalt - sv)
  let est := taxable * s.persEStRate
  let soli := est * soliRate
  let kirche := est * s.kirchensteuer
  let netto := s.bruttoGehalt - sv - est - soli - kirche
  { sv, est, soli, kirche, netto }

/-- The object returned by the `distributionNet` memo: the branch taken decides
whether the property `kapst` or the property `est` is present. -/
structure DistributionNet where
  kapst : Option JSNum
  est : Option JSNum
  soli : JSNum
  kirche : JSNum
  netto : JSNum
  mode : String
deriving DecidableEq

/-- The `distributionNet` memo (`App.jsx`, lines 205-220). -/
def distributionNet (s : State) : DistributionNet :=
  if s.abgeltungOpt then
    let kapst := s.dividende * fin 0.25
    let soli := kapst * soliRate
    let kirche := kapst * s.kirchensteuer
    let netto := s.dividende - kapst - soli - kirche
    { kapst := some kapst, est := none, soli, kirche, netto, mode := "Abgeltungsteuer 25%" }
  else
    let steuerbasis := s.dividende * fin 0.6
    let est := steuerbasis * s.persEStRate
    let soli := est * soliRate
    let kirche := est * s.kirchensteuer
    let netto := s.dividende - est - soli - kirche
    { kapst := none, est := some est, soli, kirche, netto,
      mode := "Teileinkünfteverfahren (60%)" }

/-- Which of the two sentences of the comparison panel is rendered. -/
inductive Meldung where
  | ausschuettungBringtMehr
  | gehaltBringtMehr
deriving DecidableEq

/-- The rendered comparison: the sentence and the amount handed to the
currency formatter. -/
structure Vergleich where
  meldung : Meldung
  betrag : JSNum
deriving DecidableEq

/-- The comparison panel (`App.jsx`, lines 250-254). -/
def vergleich (distributionNet : DistributionNet) (salaryNet : SalaryNet) : Vergleich :=
  if JSNum.gt distributionNet.netto salaryNet.netto then
    { meldung := .ausschuettungBringtMehr,
      betrag := fmtArg (distributionNet.netto - salaryNet.netto) }
  else
    { meldung := .gehaltBringtMehr,
      betrag := fmtArg (salaryNet.netto - distributionNet.netto) }

/-- Every numeric field has its default while `useAvg` is true. -/
def NumericPinned (s : State) : Prop :=
  s.useAvg = true →
    s.bruttoGehalt = AVG.bruttoGehalt ∧ s.dividende = AVG.dividende ∧
    s.persEStRate = AVG.persEStRate ∧ s.kirchensteuer = AVG.kirchensteuer ∧
    s.arbeitnehmerSV = AVG.arbeitnehmerSV

end GfOptimierung

/-! ## Arithmetic on finite values -/

namespace JSNum

@[simp] theorem neg_fin (a : ℚ) : -(fin a) = fin (-a) := rfl

@[simp] theorem fin_add_fin (a b : ℚ) : fin a + fin b = fin (a + b) := rfl

@[simp] theorem fin_sub_fin (a b : ℚ) : fin a - fin b = fin (a - b) := by
  show add (fin a) (neg (fin b)) = fin (a - b)
  simp [add, neg, sub_eq_add_neg]

@[simp] theorem fin_mul_fin (a b : ℚ) : fin a * fin b = fin (a * b) := rfl

theorem fin_div_fin (a b : ℚ) (hb : b ≠ 0) : fin a / fin b = fin (a / b) := by
  show div (fin a) (fin b) = fin (a / b)
  simp [div, hb]

@[simp] theorem fin_div_fin_eq (a b : ℚ) :
    fin a / fin b =
      if b = 0 then (if a = 0 then nan else signedInf (decide (0 < a))) else fin (a / b) := rfl

@[simp] theorem or_fin (a b : ℚ) : JSNum.or (fin a) (fin b) = fin (if a = 0 then b else a) := by
  by_cases h : a = 0 <;> simp [JSNum.or, truthy, h]

@[simp] theorem gt_fin (a b : ℚ) : gt (fin a) (fin b) = decide (b < a) := rfl

@[simp] theorem max_fin (a b : ℚ) : JSNum.max (fin a) (fin b) = fin (Max.max a b) := by
  rcases le_total a b with h | h
  · rcases eq_or_lt_of_le h with h1 | h1
    · subst h1; simp [JSNum.max]
    · simp [JSNum.max, h1, max_eq_right h]
  · simp [JSNum.max, not_lt.mpr h, max_eq_left h]

/-- The guard `x || 0` returns `x` itself unless `x` is `NaN`. -/
theorem or_zero_of_ne_nan (x : JSNum) (h : x ≠ nan) : JSNum.or x (fin 0) = x := by
  cases x with
  | nan => exact absurd rfl h
  | pinf => rfl
  | ninf => rfl
  | fin q =>
    by_cases hq : q = 0
    · simp [hq]
    · simp [hq]

end JSNum

/-! ## Theorems: the holding calculator -/

theorem HoldingRechner.results_totalTax_fin (u ex : Bool) (d k so g : ℚ) :
    (HoldingRechner.results ⟨u, fin d, ex, fin k, fin so, fin g⟩).totalTax
      = fin (HoldingRechner.totalTaxQ ex d k so g) := by
  cases ex <;> simp [HoldingRechner.results, HoldingRechner.totalTaxQ]

theorem HoldingRechner.results_netToHolding_fin (u ex : Bool) (d k so g : ℚ) :
    (HoldingRechner.results ⟨u, fin d, ex, fin k, fin so, fin g⟩).netToHolding
      = fin (d - HoldingRechner.totalTaxQ ex d k so g) := by
  cases ex <;> simp [HoldingRechner.results, HoldingRechner.totalTaxQ]

theorem HoldingRechner.results_effTaxRate_fin (u ex : Bool) (d k so g : ℚ) (hd : d ≠ 0) :
    (HoldingRechner.results ⟨u, fin d, ex, fin k, fin so, fin g⟩).effTaxRate
      = fin (HoldingRechner.totalTaxQ ex d k so g / d) := by
  cases ex <;> simp [HoldingRechner.results, HoldingRechner.totalTaxQ, hd] <;>
    intro h <;> rw [h] <;> simp

theorem HoldingRechner.totalTaxQ_div (ex : Bool) (d k so g : ℚ) (hd : d ≠ 0) :
    HoldingRechner.totalTaxQ ex d k so g / d
      = 0.05 * (k * (1 + so) + (if ex then 0 else g)) := by
  cases ex <;> simp [HoldingRechner.totalTaxQ] <;> field_simp <;> ring

/-- C3: in a state with useAvg = false, the click on the defaults toggle yields
the state with useAvg = true in which every dependent field has its default:
holding 200000, 0.15, 0.055, exemption true, 0.14; managing director 180000,
150000, 0.35, 0.085, 0.20, flat-tax election false, and its surcharge rate is
the constant 0.055. -/
theorem enter_defaults_resets :
    (∀ s : HoldingRechner.State, s.useAvg = false →
      HoldingRechner.step s .clickUseAvg
        = { useAvg := true, dividend := fin 200000, hasTradeTaxExemption := true,
            kStRate := fin 0.15, soliRate := fin 0.055, gewStRate := fin 0.14 }) ∧
    (∀ s : GfOptimierung.State, s.useAvg = false →
      GfOptimierung.step s .clickUseAvg
        = { useAvg := true, bruttoGehalt := fin 180000, persEStRate := fin 0.35,
            kirchensteuer := fin 0.085, abgeltungOpt := false, dividende := fin 150000,
            arbeitnehmerSV := fin 0.20 }) ∧
    GfOptimierung.soliRate = fin 0.055 := by
  refine ⟨?_, ?_, rfl⟩
  · rintro ⟨u, d, ex, k, so, g⟩ h
    simp only at h
    subst h
    simp [HoldingRechner.step, HoldingRechner.commit, Toggle.onClick, HoldingRechner.setUseAvg,
      HoldingRechner.useEffect, HoldingRechner.setDividend, HoldingRechner.setTradeTaxExemption,
      HoldingRechner.setKStRate, HoldingRechner.setSoliRate, HoldingRechner.setGewStRate,
      HoldingRechner.AVG.dividend, HoldingRechner.AVG.hasTradeTaxExemption,
      HoldingRechner.AVG.kStRate, HoldingRechner.AVG.soliRate, HoldingRechner.AVG.gewStRate]
  · rintro ⟨u, b, p, k, a, d, sv⟩ h
    simp only at h
    subst h
    simp [GfOptimierung.step, GfOptimierung.commit, Toggle.onClick, GfOptimierung.setUseAvg,
      GfOptimierung.useEffect, GfOptimierung.setBruttoGehalt, GfOptimierung.setPersEStRate,
      GfOptimierung.setKirchensteuer, GfOptimierung.setAbgeltungOpt,
      GfOptimierung.setDividende, GfOptimierung.setArbeitnehmerSV,
      GfOptimierung.AVG.bruttoGehalt, GfOptimierung.AVG.persEStRate,
      GfOptimierung.AVG.kirchensteuer, GfOptimierung.AVG.abgeltungOpt,
      GfOptimierung.AVG.dividende, GfOptimierung.AVG.arbeitnehmerSV]
    norm_num

/-- Witness of C3: two custom-mode states with edited fields are reset by the
click on the defaults toggle. -/
theorem enter_defaults_resets_witness :
    HoldingRechner.step ⟨false, fin 1, false, fin 2, nan, fin 4⟩ .clickUseAvg
      = { useAvg := true, dividend := fin 200000, hasTradeTaxExemption := true,
          kStRate := fin 0.15, soliRate := fin 0.055, gewStRate := fin 0.14 } ∧
    GfOptimierung.step ⟨false, fin 1, fin 2, nan, true, fin 4, fin 5⟩ .clickUseAvg
      = { useAvg := true, bruttoGehalt := fin 180000, persEStRate := fin 0.35,
          kirchensteuer := fin 0.085, abgeltungOpt := false, dividende := fin 150000,
          arbeitnehmerSV := fin 0.20 } :=
  ⟨enter_defaults_resets.1 ⟨false, fin 1, false, fin 2, nan, fin 4⟩ rfl,
    enter_defaults_resets.2.1 ⟨false, fin 1, fin 2, nan, true, fin 4, fin 5⟩ rfl⟩

/-- C4: in a state with useAvg = true, the click on the defaults toggle yields
the same state with useAvg = false: no dependent field of either calculator
changes. -/
theorem leave_defaults_frame :
    (∀ s : HoldingRechner.State, s.useAvg = true →
      HoldingRechner.step s .clickUseAvg = { s with useAvg := false }) ∧
    (∀ s : GfOptimierung.State, s.useAvg = true →
      GfOptimierung.step s .clickUseAvg = { s with useAvg := false }) := by
  constructor
  · rintro ⟨u, d, ex, k, so, g⟩ h
    simp only at h
    subst h
    simp [HoldingRechner.step, HoldingRechner.commit, Toggle.onClick, HoldingRechner.setUseAvg,
      HoldingRechner.useEffect]
  · rintro ⟨u, b, p, k, a, d, sv⟩ h
    simp only at h
    subst h
    simp [GfOptimierung.step, GfOptimierung.commit, Toggle.onClick, GfOptimierung.setUseAvg,
      GfOptimierung.useEffect]

/-- Witness of C4: leaving defaults mode from the mounted states, and from a
defaults-mode holding state whose exemption flag was flipped. -/
theorem leave_defaults_frame_witness :
    HoldingRechner.step ⟨true, fin 200000, false, fin 0.15, fin 0.055, fin 0.14⟩ .clickUseAvg
      = ⟨false, fin 200000, false, fin 0.15, fin 0.055, fin 0.14⟩ ∧
    GfOptimierung.step GfOptimierung.init .clickUseAvg
      = { GfOptimierung.init with useAvg := false } :=
  ⟨leave_defaults_frame.1 ⟨true, fin 200000, false, fin 0.15, fin 0.055, fin 0.14⟩ rfl,
    leave_defaults_frame.2 GfOptimierung.init rfl⟩

/-! ## Theorems: the managing-director calculator -/

/-- The two net results of a state with finite fields are finite. -/
theorem GfOptimierung.netto_fin (u a : Bool) (b p k d sv : ℚ) :
    ∃ x y : ℚ,
      (GfOptimierung.distributionNet ⟨u, fin b, fin p, fin k, a, fin d, fin sv⟩).netto = fin x ∧
      (GfOptimierung.salaryNet ⟨u, fin b, fin p, fin k, a, fin d, fin sv⟩).netto = fin y := by
  cases a <;>
    simp [GfOptimierung.distributionNet, GfOptimierung.salaryNet, GfOptimierung.soliRate,
      GfOptimierung.AVG.soliRate]

theorem strUnsignedDecimalLiteral_ne_nan (cs : List Char) :
    strUnsignedDecimalLiteral cs ≠ some nan := by
  unfold strUnsignedDecimalLiteral
  split_ifs with h
  · simp
  · split <;> dsimp only <;> split_ifs <;> simp

theorem strDecimalLiteral_ne_nan (cs : List Char) : strDecimalLiteral cs ≠ some nan := by
  unfold strDecimalLiteral
  split
  · exact strUnsignedDecimalLiteral_ne_nan _
  · intro h
    rcases Option.map_eq_some'.mp h with ⟨v, hv, hn⟩
    cases v <;> simp [JSNum.neg] at hn
    exact strUnsignedDecimalLiteral_ne_nan _ hv
  · exact strUnsignedDecimalLiteral_ne_nan _

theorem parseFloat_eq_nan_iff (value : String) :
    parseFloat value = nan ↔
      strDecimalLiteral (value.toList.dropWhile isStrWhiteSpaceChar) = none := by
  unfold parseFloat
  cases h : strDecimalLiteral (value.toList.dropWhile isStrWhiteSpaceChar) with
  | none => simp
  | some v =>
    have := strDecimalLiteral_ne_nan (value.toList.dropWhile isStrWhiteSpaceChar)
    rw [h] at this
    simp
    intro hv
    exact this (by rw [hv])

theorem HoldingRechner.holdingPinned_step (s : HoldingRechner.State) (e : HoldingRechner.Event)
    (h : HoldingRechner.NumericPinned s) : HoldingRechner.NumericPinned (HoldingRechner.step s e) := by
  obtain ⟨u, d, ex, k, so, g⟩ := s
  cases u <;> cases e <;>
    simp_all [HoldingRechner.NumericPinned, HoldingRechner.step, HoldingRechner.commit,
      Toggle.onClick, NumberInput.change, NumberInput.onChange, HoldingRechner.setUseAvg,
      HoldingRechner.useEffect, HoldingRechner.setDividend,
      HoldingRechner.setTradeTaxExemption, HoldingRechner.setKStRate,
      HoldingRechner.setSoliRate, HoldingRechner.setGewStRate]

theorem HoldingRechner.holdingPinned_foldl (es : List HoldingRechner.Event) :
    ∀ s : HoldingRechner.State, HoldingRechner.NumericPinned s →
      HoldingRechner.NumericPinned (es.foldl HoldingRechner.step s) := by
  induction es with
  | nil => intro s h; exact h
  | cons e es ih =>
    intro s h
    exact ih _ (HoldingRechner.holdingPinned_step s e h)

/-- In every reachable state of the holding calculator with `useAvg` true the
four numeric fields have their defaults. -/
theorem HoldingRechner.holdingPinned_run (es : List HoldingRechner.Event) :
    HoldingRechner.NumericPinned (HoldingRechner.run es) := by
  apply HoldingRechner.holdingPinned_foldl
  intro _
  simp [HoldingRechner.init, HoldingRechner.useEffect, HoldingRechner.setDividend,
    HoldingRechner.setTradeTaxExemption, HoldingRechner.setKStRate,
    HoldingRechner.setSoliRate, HoldingRechner.setGewStRate]

theorem GfOptimierung.gfPinned_step (s : GfOptimierung.State) (e : GfOptimierung.Event)
    (h : GfOptimierung.NumericPinned s) : GfOptimierung.NumericPinned (GfOptimierung.step s e) := by
  obtain ⟨u, b, p, k, a, d, sv⟩ := s
  cases u <;> cases e <;>
    simp_all [GfOptimierung.NumericPinned, GfOptimierung.step, GfOptimierung.commit,
      Toggle.onClick, NumberInput.change, NumberInput.onChange, GfOptimierung.setUseAvg,
      GfOptimierung.useEffect, GfOptimierung.setBruttoGehalt, GfOptimierung.setPersEStRate,
      GfOptimierung.setKirchensteuer, GfOptimierung.setAbgeltungOpt,
      GfOptimierung.setDividende, GfOptimierung.setArbeitnehmerSV]

theorem GfOptimierung.gfPinned_foldl (es : List GfOptimierung.Event) :
    ∀ s : GfOptimierung.State, GfOptimierung.NumericPinned s →
      GfOptimierung.NumericPinned (es.foldl GfOptimierung.step s) := by
  induction es with
  | nil => intro s h; exact h
  | cons e es ih =>
    intro s h
    exact ih _ (GfOptimierung.gfPinned_step s e h)

/-- In every reachable state of the managing-director calculator with `useAvg`
true the five numeric fields have their defaults. -/
theorem GfOptimierung.gfPinned_run (es : List GfOptimierung.Event) :
    GfOptimierung.NumericPinned (GfOptimierung.run es) := by
  apply GfOptimierung.gfPinned_foldl
  intro _
  simp [GfOptimierung.init, GfOptimierung.useEffect, GfOptimierung.setBruttoGehalt,
    GfOptimierung.setPersEStRate, GfOptimierung.setKirchensteuer,
    GfOptimierung.setAbgeltungOpt, GfOptimierung.setDividende,
    GfOptimierung.setArbeitnehmerSV]

/-- C9, the code at the failing input: one click on the exemption toggle of the
mounted holding calculator, or on the flat-tax toggle of the mounted
managing-director calculator, leaves `useAvg` true and moves the boolean field
away from its default. -/
theorem defaults_mode_toggle_not_pinned :
    (HoldingRechner.run [.clickTradeTaxExemption]).useAvg = true ∧
    (HoldingRechner.run [.clickTradeTaxExemption]).hasTradeTaxExemption = false ∧
    HoldingRechner.AVG.hasTradeTaxExemption = true ∧
    (GfOptimierung.run [.clickAbgeltungOpt]).useAvg = true ∧
    (GfOptimierung.run [.clickAbgeltungOpt]).abgeltungOpt = true ∧
    GfOptimierung.AVG.abgeltungOpt = false := by
  decide

end SteuerTool
